import Mathlib

/-!
Verification of the new-music-checker program (src/main.py) against its
natural-language specification.  The Python source is shallowly embedded:
pure functions become Lean functions, the external Spotify client and the
HTTP layer become explicit oracles (functions supplied as parameters), the
persisted `releases.json` file becomes an `Option (List Release)` value
(`none` = file absent), and logging / sleeping become counters or string
lists recorded in the result.
-/

namespace NewMusicChecker

/-- Embeds the Python class `Artist` (src/main.py lines 19-31). -/
structure Artist where
  id : String
  name : String
  spotify_url : String
deriving DecidableEq, Repr

/-- Embeds the Python class `Release` (src/main.py lines 34-50).
`release_type` defaults to `None` in Python, hence `Option String`. -/
structure Release where
  id : String
  artist_name : String
  spotify_url : String
  release_date : String
  release_type : Option String
deriving DecidableEq, Repr

/-- The fields of a followed-artist dict returned by the Spotify API that
the program reads (`id`, `name`, `external_urls["spotify"]`). -/
structure ArtistData where
  id : String
  name : String
  spotify_url : String
deriving DecidableEq, Repr

/-- The fields of an album dict returned by `sp.artist_albums` that the
program reads (`id`, `external_urls["spotify"]`, `release_date`,
`album_type`). -/
structure AlbumData where
  id : String
  spotify_url : String
  release_date : String
  album_type : String
deriving DecidableEq, Repr

/-- Lexicographic order on character lists, mirroring Python string
comparison `s < t` (element-wise by code point; a proper prefix is
smaller). -/
def strLt : List Char → List Char → Bool
  | [], [] => false
  | [], _ :: _ => true
  | _ :: _, [] => false
  | a :: as, b :: bs => if a < b then true else if b < a then false else strLt as bs

/-- Python `s >= t` on strings: the negation of lexicographic `s < t`. -/
def pyStrGe (s t : String) : Bool := ! strLt s.data t.data

/-- Embeds `create_artist_from_data` (src/main.py lines 62-67). -/
def create_artist_from_data (d : ArtistData) : Artist :=
  { id := d.id, name := d.name, spotify_url := d.spotify_url }

/-- Embeds `create_release_from_data` (src/main.py lines 70-77). -/
def create_release_from_data (d : AlbumData) (artist_name : String) : Release :=
  { id := d.id
    artist_name := artist_name
    spotify_url := d.spotify_url
    release_date := d.release_date
    release_type := some d.album_type }

/-- Embeds `contains_release` (src/main.py lines 155-159): a linear scan
comparing only the `id` fields. -/
def contains_release : List Release → Release → Bool
  | [], _ => false
  | x :: rest, release => if x.id == release.id then true else contains_release rest release

/-- Embeds `check_if_new_release` (src/main.py lines 162-163). -/
def check_if_new_release (releases_record : List Release) (release : Release) : Bool :=
  ! contains_release releases_record release

/-- Embeds `load_releases_from_file` (src/main.py lines 133-152): the file
state is `none` when `releases.json` does not exist, in which case the
function returns the empty list (cold start).  JSON round-tripping of the
record fields is modelled as the identity. -/
def load_releases_from_file (file : Option (List Release)) : List Release :=
  match file with
  | none => []
  | some releases => releases

/-- Embeds `save_releases_to_file` (src/main.py lines 109-123): the whole
record is serialized and written, replacing the previous file state. -/
def save_releases_to_file (releases : List Release) : Option (List Release) :=
  some releases

/-- Embeds `add_new_releases_to_file` (src/main.py lines 126-130): load the
persisted record, append each release in order, save the result. -/
def add_new_releases_to_file (file : Option (List Release)) (releases : List Release) :
    Option (List Release) :=
  save_releases_to_file (load_releases_from_file file ++ releases)

/-- A calendar date, standing for the date part of `datetime.datetime.now()`. -/
structure Date where
  year : Nat
  month : Nat
  day : Nat
deriving DecidableEq, Repr

/-- Gregorian leap-year rule, as used by Python `datetime` arithmetic. -/
def isLeapYear (y : Nat) : Bool :=
  (y % 4 == 0 && y % 100 != 0) || y % 400 == 0

/-- Number of days in a month of a given year (proleptic Gregorian). -/
def daysInMonth (y m : Nat) : Nat :=
  if m = 2 then (if isLeapYear y then 29 else 28)
  else if m = 4 ∨ m = 6 ∨ m = 9 ∨ m = 11 then 30
  else 31

/-- The calendar date one day earlier: embeds
`datetime.datetime.now() - datetime.timedelta(days=1)` (naive datetime
arithmetic always yields the previous calendar day). -/
def prevDay (d : Date) : Date :=
  if d.day > 1 then ⟨d.year, d.month, d.day - 1⟩
  else if d.month > 1 then ⟨d.year, d.month - 1, daysInMonth d.year (d.month - 1)⟩
  else ⟨d.year - 1, 12, 31⟩

/-- The decimal digit character for `n % 10`. -/
def digitChar (n : Nat) : Char := Char.ofNat (48 + n % 10)

/-- Two-digit zero-padded decimal rendering, as `strftime` `%m` / `%d`
produce for the month and day values 1..31 that arise here. -/
def pad2 (n : Nat) : String :=
  String.mk [digitChar (n / 10), digitChar n]

/-- Four-digit zero-padded decimal rendering, as `strftime` `%Y` produces
for the years 1..9999 representable by Python `datetime`. -/
def pad4 (n : Nat) : String :=
  String.mk [digitChar (n / 1000), digitChar (n / 100), digitChar (n / 10), digitChar n]

/-- Embeds `strftime("%Y-%m-%d")` on a date. -/
def formatDate (d : Date) : String :=
  pad4 d.year ++ "-" ++ pad2 d.month ++ "-" ++ pad2 d.day

/-- The errors caught inside the scan loop (src/main.py lines 181-186):
`requests.exceptions.ConnectionError` and `requests.exceptions.ReadTimeout`.
Any other exception would propagate and is therefore not a value of the
oracle. -/
inductive ScanError where
  | connectionError
  | readTimeout
deriving DecidableEq, Repr

/-- The outcome of one `sp.artist_albums(artist.id, include_groups=group,
limit=5)` call: a page of at most 5 albums, or a caught transient error. -/
def ScanOracle : Type := Artist → String → Except ScanError (List AlbumData)

/-- The four release-group categories queried per artist
(src/main.py line 176). -/
def scan_groups : List String := ["album", "single", "appears_on", "compilation"]

/-- The per-artist inner loop of `get_following_artists_new_releases`
(src/main.py lines 173-189): query each group, skip a group on a caught
connection / read-timeout error, and merge the returned items in group
order.  The Python guard `if latest_items["items"]` before `extend` is
behaviourally the identity (extending by an empty list). -/
def merged_items (oracle : ScanOracle) (a : Artist) : List AlbumData :=
  scan_groups.foldl
    (fun acc g =>
      match oracle a g with
      | Except.ok items => acc ++ items
      | Except.error _ => acc)
    []

/-- The recency filter of `get_following_artists_new_releases`
(src/main.py lines 194-199): keep an album exactly when
`release_date >= yesterday` as Python string comparison, and build a
`Release` from each kept album in order. -/
def filter_recent (yesterday : String) (artist_name : String) (items : List AlbumData) :
    List Release :=
  (items.filter (fun al => pyStrGe al.release_date yesterday)).map
    (fun al => create_release_from_data al artist_name)

/-- The scan over all artists with an explicit cutoff string: artist
iteration order, then category order, then upstream result order. -/
def scanWithCutoff (oracle : ScanOracle) (yesterday : String) (artists : List Artist) :
    List Release :=
  artists.foldl (fun acc a => acc ++ filter_recent yesterday a.name (merged_items oracle a)) []

/-- Embeds `get_following_artists_new_releases` (src/main.py lines
166-201).  The artist list (in the source re-fetched via
`get_following_artists(sp)`) is a parameter; `now` stands for
`datetime.datetime.now()`, and the cutoff is computed on line 171 as
`(now - timedelta(days=1)).strftime("%Y-%m-%d")` — it is a pure function
of the current date, taken from no configuration input. -/
def get_following_artists_new_releases (oracle : ScanOracle) (now : Date)
    (artists : List Artist) : List Release :=
  if artists = [] then []
  else scanWithCutoff oracle (formatDate (prevDay now)) artists

/-- The bound `MAX_RETRIES` of `fetch_all_followed_artists`
(src/main.py line 91). -/
def MAX_RETRIES : Nat := 5

/-- The outcome of one `sp.next(results["artists"])` call inside the
pagination loop: a page (`items` plus whether a further page exists), a
`requests.exceptions.ConnectionError` (the only caught exception), or any
other exception. -/
inductive PageResult where
  | ok (items : List ArtistData) (next : Bool)
  | connError
  | otherError
deriving DecidableEq, Repr

/-- The pagination loop of `fetch_all_followed_artists` (src/main.py lines
93-104).  `responses` is the trace of outcomes of the successive
`sp.next` calls; `sleeps` counts the `time.sleep(1)` one-second delays
performed.  A successful page extends the accumulator and updates
`next_page`; a caught connection error increments `retry_count` and sleeps
one second (the loop guard `retry_count < MAX_RETRIES` then stops after the
fifth); any other exception propagates (`Except.error`).  An exhausted
trace models the upstream ending the conversation and simply returns what
was accumulated. -/
def fetchLoop : List PageResult → Nat → Bool → List ArtistData → Nat →
    Except Unit (List ArtistData × Nat)
  | _, _, false, acc, sleeps => Except.ok (acc, sleeps)
  | responses, retry_count, true, acc, sleeps =>
    if retry_count ≥ MAX_RETRIES then Except.ok (acc, sleeps)
    else
      match responses with
      | [] => Except.ok (acc, sleeps)
      | PageResult.ok items next :: rest => fetchLoop rest retry_count next (acc ++ items) sleeps
      | PageResult.connError :: rest => fetchLoop rest (retry_count + 1) true acc (sleeps + 1)
      | PageResult.otherError :: _ => Except.error ()

/-- Embeds `fetch_all_followed_artists` (src/main.py lines 85-106): the
initial `sp.current_user_followed_artists(limit=50)` call is outside the
`try`, so any exception there propagates; then the retry loop runs with
`retry_count = 0`. -/
def fetch_all_followed_artists (first : PageResult) (responses : List PageResult) :
    Except Unit (List ArtistData × Nat) :=
  match first with
  | PageResult.ok items next => fetchLoop responses 0 next items 0
  | PageResult.connError => Except.error ()
  | PageResult.otherError => Except.error ()

/-- The message body built for one release (src/main.py lines 216-218),
with the source's f-string interpolations. -/
def discord_content (r : Release) : String :=
  "New " ++ r.release_date ++ " from " ++ r.artist_name ++ ": " ++ r.release_date ++
    " - " ++ r.spotify_url

/-- The delivery loop of `push_message_to_discord` (src/main.py lines
215-227).  `statusOf i` is the HTTP status code of the `i`-th POST;
the first component collects the bodies actually POSTed, in order, and the
second the indices of deliveries whose status was not 204 (each logged as
a failure, after which the loop continues). -/
def pushLoop (statusOf : Nat → Nat) (i : Nat) : List Release → List String × List Nat
  | [] => ([], [])
  | r :: rest =>
    let later := pushLoop statusOf (i + 1) rest
    (discord_content r :: later.1,
      if statusOf i = 204 then later.2 else i :: later.2)

/-- Embeds `push_message_to_discord` (src/main.py lines 213-227): one POST
per release against the webhook URL. -/
def push_message_to_discord (statusOf : Nat → Nat) (_webhook_url : String)
    (releases : List Release) : List String × List Nat :=
  pushLoop statusOf 0 releases

/-- Embeds `send_message_to_discord` (src/main.py lines 204-210): read
`DISCORD_WEBHOOK_URL` from the environment (`none` when unset); `if not
webhook_url` is true for an unset variable and for the empty string, in
which case the step logs and returns having made zero requests. -/
def send_message_to_discord (env : Option String) (statusOf : Nat → Nat)
    (releases : List Release) : List String × List Nat :=
  match env with
  | none => ([], [])
  | some url => if url = "" then ([], []) else push_message_to_discord statusOf url releases

/-- The observable outcome of one run of `main`: the final file state, how
many times `save_releases_to_file` wrote the file, the POST bodies sent to
the webhook, the indices of failed deliveries, and the orchestrator's info
log lines. -/
structure RunOutcome where
  file : Option (List Release)
  fileWrites : Nat
  posts : List String
  failures : List Nat
  log : List String
deriving DecidableEq, Repr

/-- Embeds `main` (src/main.py lines 230-255).  The followed-artist list
(in the source obtained from `get_following_artists(sp)`, deterministically
re-queried by the scanner) is the parameter `artists`; `file0` is the state
of `releases.json` at startup; `env` is `DISCORD_WEBHOOK_URL`; `statusOf`
gives webhook response statuses.  The two `return` statements are the
short-circuits for no artists and no recent releases; note that an empty
`new_releases` list does NOT short-circuit: the notify and persist steps
still run on the empty list. -/
def main (artists : List Artist) (oracle : ScanOracle) (now : Date)
    (file0 : Option (List Release)) (env : Option String) (statusOf : Nat → Nat) :
    RunOutcome :=
  if artists = [] then
    { file := file0, fileWrites := 0, posts := [], failures := [],
      log := ["No followed artists found."] }
  else
    let spotify_releases := get_following_artists_new_releases oracle now artists
    if spotify_releases = [] then
      { file := file0, fileWrites := 0, posts := [], failures := [],
        log := ["Found " ++ Nat.repr artists.length ++ " followed artists.",
                "Checking for new releases...",
                "No recent releases found."] }
    else
      let releases_record := load_releases_from_file file0
      let new_releases := spotify_releases.filter
        (fun release => check_if_new_release releases_record release)
      let notify := send_message_to_discord env statusOf new_releases
      { file := add_new_releases_to_file file0 new_releases,
        fileWrites := 1,
        posts := notify.1,
        failures := notify.2,
        log := ["Found " ++ Nat.repr artists.length ++ " followed artists.",
                "Checking for new releases...",
                "Found " ++ Nat.repr new_releases.length ++ " new releases."] }

/-! Concrete example inputs used by witnesses and counterexamples. -/

/-- A followed artist used in concrete runs. -/
def artOne : Artist := ⟨"a1", "Artist One", "https-artist-one"⟩

/-- An album released on 2026-10-12. -/
def albOne : AlbumData := ⟨"r1", "https-album-one", "2026-10-12", "album"⟩

/-- An album whose release date equals the cutoff used in the witnesses. -/
def albBoundary : AlbumData := ⟨"rb", "https-album-b", "2026-10-11", "album"⟩

/-- An album carrying a year-only release-date string. -/
def albCoarse : AlbumData := ⟨"ry", "https-album-y", "2026", "album"⟩

/-- Two albums sharing the id "rd", surfaced under different groups. -/
def albDupA : AlbumData := ⟨"rd", "https-dup-1", "2026-10-12", "album"⟩

/-- Second album with the duplicated id "rd". -/
def albDupB : AlbumData := ⟨"rd", "https-dup-2", "2026-10-12", "single"⟩

/-- A scan oracle returning exactly one recent album, under the "album"
group. -/
def oracleOne : ScanOracle := fun _ g =>
  if g = "album" then Except.ok [albOne] else Except.ok []

/-- A scan oracle returning two albums with the same id under two
different groups. -/
def oracleDup : ScanOracle := fun _ g =>
  if g = "album" then Except.ok [albDupA]
  else if g = "single" then Except.ok [albDupB]
  else Except.ok []

/-- A fixed current date for concrete runs. -/
def exNow : Date := ⟨2026, 10, 12⟩

/-- A webhook that always answers 204. -/
def status204 : Nat → Nat := fun _ => 204

/-- A webhook whose second request (index 1) fails with 500 and all others
answer 204. -/
def status3 : Nat → Nat := fun i => if i = 1 then 500 else 204

/-- The release built from `albOne` as the scanner builds it. -/
def relSeenOne : Release := create_release_from_data albOne "Artist One"

/-- Example release r1 by Artist One. -/
def relA : Release := ⟨"r1", "Artist One", "u1", "2026-10-12", some "album"⟩

/-- Example release with the same id as `relA` but every other field
different. -/
def relB : Release := ⟨"r1", "Artist Two", "u2", "2025-01-01", some "single"⟩

/-- Example release with a fresh id r2. -/
def relC : Release := ⟨"r2", "Artist Three", "u3", "2026-10-12", some "album"⟩

/-- Example release with a fresh id r3. -/
def relD : Release := ⟨"r3", "Artist Four", "u4", "2026-10-11", some "compilation"⟩

/-! Helper lemmas. -/

/-- Lexicographic comparison of a character list with itself is false. -/
theorem strLt_irrefl (l : List Char) : strLt l l = false := by
  induction l with
  | nil => rfl
  | cons a as ih => simp [strLt, ih]

/-- Building a release from album data keeps every album field, so for a
fixed artist name the construction is injective. -/
theorem create_release_from_data_inj (nm : String) (a b : AlbumData)
    (h : create_release_from_data a nm = create_release_from_data b nm) : a = b := by
  cases a
  cases b
  simp only [create_release_from_data, Release.mk.injEq, Option.some.injEq] at h
  simp only [AlbumData.mk.injEq]
  exact ⟨h.1, h.2.2.1, h.2.2.2.1, h.2.2.2.2⟩

/-- Membership in the recency filter's output, for an album drawn from the
input page: the built release is kept exactly when the album's
release-date string is not lexicographically below the cutoff string. -/
theorem mem_filter_recent (cutoff nm : String) (items : List AlbumData) (al : AlbumData)
    (hmem : al ∈ items) :
    create_release_from_data al nm ∈ filter_recent cutoff nm items ↔
      strLt al.release_date.data cutoff.data = false := by
  unfold filter_recent
  constructor
  · intro h
    obtain ⟨al', hal', heq⟩ := List.mem_map.mp h
    obtain ⟨_, hfilt⟩ := List.mem_filter.mp hal'
    have hal : al' = al := create_release_from_data_inj nm al' al heq
    subst hal
    simpa [pyStrGe] using hfilt
  · intro h
    exact List.mem_map.mpr ⟨al, List.mem_filter.mpr ⟨hmem, by simp [pyStrGe, h]⟩, rfl⟩

/-- The linear scan of `contains_release` answers true exactly when the
candidate's id occurs among the ids of the record. -/
theorem contains_release_eq_true_iff (l : List Release) (r : Release) :
    contains_release l r = true ↔ r.id ∈ l.map Release.id := by
  induction l with
  | nil => simp [contains_release]
  | cons x rest ih =>
    by_cases h : x.id = r.id
    · simp [contains_release, h]
    · simp [contains_release, h, ih, Ne.symm h]

/-! Claim theorems. -/

/-- Claim C2: for every scanned candidate album, the scanner's recency
filter keeps the built release exactly when its release-date string is not
strictly below the cutoff (Python string `>=`), and a release date equal
to the cutoff is never strictly below it, hence is included. -/
theorem C2_recency_filter_boundary :
    (∀ (cutoff nm : String) (items : List AlbumData) (al : AlbumData), al ∈ items →
      (create_release_from_data al nm ∈ filter_recent cutoff nm items ↔
        strLt al.release_date.data cutoff.data = false)) ∧
    (∀ s : String, strLt s.data s.data = false) :=
  ⟨fun cutoff nm items al hmem => mem_filter_recent cutoff nm items al hmem,
   fun s => strLt_irrefl s.data⟩

/-- Witness for C2: an album dated exactly at the cutoff 2026-10-11 is
included by the recency filter. -/
theorem C2_recency_filter_boundary_witness :
    create_release_from_data albBoundary "A" ∈ filter_recent "2026-10-11" "A" [albBoundary] :=
  (C2_recency_filter_boundary.1 "2026-10-11" "A" [albBoundary] albBoundary
    (by decide)).mpr (by decide)

/-- Claim C3: `check_if_new_release` answers true exactly when no record
in the seen list shares the candidate's id; the other fields of the
candidate and of the records never affect the result. -/
theorem C3_check_if_new_release_id_only :
    (∀ (releases_record : List Release) (r : Release),
      check_if_new_release releases_record r = true ↔
        ∀ x ∈ releases_record, x.id ≠ r.id) ∧
    (∀ (releases_record : List Release) (r r' : Release), r.id = r'.id →
      check_if_new_release releases_record r = check_if_new_release releases_record r') ∧
    (∀ (releases_record record' : List Release) (r : Release),
      releases_record.map Release.id = record'.map Release.id →
      check_if_new_release releases_record r = check_if_new_release record' r) := by
  refine ⟨?_, ?_, ?_⟩
  · intro releases_record r
    rw [check_if_new_release, Bool.not_eq_true']
    rw [← Bool.not_eq_true (contains_release releases_record r)]
    rw [contains_release_eq_true_iff]
    simp [eq_comm]
  · intro releases_record r r' h
    unfold check_if_new_release
    have : contains_release releases_record r = contains_release releases_record r' := by
      rw [Bool.eq_iff_iff, contains_release_eq_true_iff, contains_release_eq_true_iff, h]
    rw [this]
  · intro releases_record record' r h
    unfold check_if_new_release
    have : contains_release releases_record r = contains_release record' r := by
      rw [Bool.eq_iff_iff, contains_release_eq_true_iff, contains_release_eq_true_iff, h]
    rw [this]

/-- Witness for C3: changing every non-id field of the candidate, or of
the stored record, leaves the answer unchanged. -/
theorem C3_check_if_new_release_id_only_witness :
    check_if_new_release [relC] relA = check_if_new_release [relC] relB ∧
    check_if_new_release [relA] relC = check_if_new_release [relB] relC :=
  ⟨C3_check_if_new_release_id_only.2.1 [relC] relA relB rfl,
   C3_check_if_new_release_id_only.2.2 [relA] [relB] relC (by decide)⟩

/-- Claim C10: exclusion by the recency filter is decided purely by
lexicographic string comparison, so an album whose release-date string is
lexicographically below the cutoff string is excluded regardless of its
chronological meaning; in particular the year-only string "2026" and the
year-month string "2026-10" both compare below the cutoff "2026-10-11". -/
theorem C10_lexicographic_exclusion :
    (∀ (cutoff nm : String) (items : List AlbumData) (al : AlbumData), al ∈ items →
      strLt al.release_date.data cutoff.data = true →
      create_release_from_data al nm ∉ filter_recent cutoff nm items) ∧
    strLt "2026".data "2026-10-11".data = true ∧
    strLt "2026-10".data "2026-10-11".data = true := by
  refine ⟨?_, by decide, by decide⟩
  intro cutoff nm items al hmem hlt hcontra
  have hfalse := (mem_filter_recent cutoff nm items al hmem).mp hcontra
  rw [hfalse] at hlt
  cases hlt

/-- Witness for C10: an album dated with the year-only string "2026" is
excluded under the cutoff 2026-10-11 although the year 2026 contains days
on or after the cutoff. -/
theorem C10_lexicographic_exclusion_witness :
    create_release_from_data albCoarse "A" ∉ filter_recent "2026-10-11" "A" [albCoarse] :=
  C10_lexicographic_exclusion.1 "2026-10-11" "A" [albCoarse] albCoarse (by decide) (by decide)

/-- Claim C9: the scanner's recency cutoff is, for every run, the
formatted calendar date one day before the current date — the scan equals
a scan with the explicit cutoff string `formatDate (prevDay now)`, a pure
function of `now` with no configuration input; the formatting is
YYYY-MM-DD with zero padding, rolling over month ends, year ends and the
leap day correctly. -/
theorem C9_cutoff_is_yesterday :
    (∀ (oracle : ScanOracle) (now : Date) (artists : List Artist),
      get_following_artists_new_releases oracle now artists =
        scanWithCutoff oracle (formatDate (prevDay now)) artists) ∧
    formatDate (prevDay ⟨2026, 10, 12⟩) = "2026-10-11" ∧
    formatDate (prevDay ⟨2026, 10, 1⟩) = "2026-09-30" ∧
    formatDate (prevDay ⟨2026, 1, 1⟩) = "2025-12-31" ∧
    formatDate (prevDay ⟨2024, 3, 1⟩) = "2024-02-29" ∧
    formatDate (prevDay ⟨2023, 3, 1⟩) = "2023-02-28" := by
  refine ⟨?_, by decide, by decide, by decide, by decide, by decide⟩
  intro oracle now artists
  by_cases h : artists = []
  · subst h
    rfl
  · simp [get_following_artists_new_releases, h]

/-- Unfolding the pagination loop once on a non-connection error while the
loop is still live: the exception propagates. -/
theorem fetchLoop_otherError (rest : List PageResult) (acc : List ArtistData)
    (retry_count sleeps : Nat) (h : retry_count < MAX_RETRIES) :
    fetchLoop (PageResult.otherError :: rest) retry_count true acc sleeps =
      Except.error () := by
  have h' : ¬ retry_count ≥ MAX_RETRIES := by omega
  simp [fetchLoop, h']

/-- Once the retry budget is exhausted the pagination loop returns the
accumulated artists, whatever responses would still be pending. -/
theorem fetchLoop_maxed (responses : List PageResult) (retry_count : Nat)
    (acc : List ArtistData) (sleeps : Nat) (h : retry_count ≥ MAX_RETRIES) :
    fetchLoop responses retry_count true acc sleeps = Except.ok (acc, sleeps) := by
  cases responses with
  | nil => simp [fetchLoop, h]
  | cons p rest => cases p <;> simp [fetchLoop, h]

/-- The pagination loop returns normally whenever its trace holds no
non-connection error, with at most `MAX_RETRIES - retry_count` further
one-second sleeps and the incoming accumulator preserved as a prefix. -/
theorem fetchLoop_ok_of_no_otherError :
    ∀ (responses : List PageResult) (retry_count : Nat) (next : Bool)
      (acc : List ArtistData) (sleeps : Nat),
      PageResult.otherError ∉ responses →
      ∃ arts s, fetchLoop responses retry_count next acc sleeps = Except.ok (arts, s) ∧
        s ≤ sleeps + (MAX_RETRIES - retry_count) ∧ ∃ tail, arts = acc ++ tail := by
  intro responses
  induction responses with
  | nil =>
    intro retry_count next acc sleeps _
    refine ⟨acc, sleeps, ?_, by omega, [], by simp⟩
    cases next
    · rfl
    · simp [fetchLoop]
  | cons p rest ih =>
    intro retry_count next acc sleeps hno
    have hno' : PageResult.otherError ∉ rest := fun hmem => hno (List.mem_cons_of_mem _ hmem)
    have hp : p ≠ PageResult.otherError := fun hmem => hno (hmem ▸ List.mem_cons_self _ _)
    cases next with
    | false => exact ⟨acc, sleeps, rfl, by omega, [], by simp⟩
    | true =>
      by_cases hr : retry_count ≥ MAX_RETRIES
      · exact ⟨acc, sleeps, fetchLoop_maxed _ _ _ _ hr, by omega, [], by simp⟩
      · cases p with
        | ok items next' =>
          obtain ⟨arts, s, heq, hs, tail, htail⟩ := ih retry_count next' (acc ++ items) sleeps hno'
          refine ⟨arts, s, by simp [fetchLoop, hr, heq], by omega, items ++ tail, by simp [htail]⟩
        | connError =>
          obtain ⟨arts, s, heq, hs, tail, htail⟩ :=
            ih (retry_count + 1) true acc (sleeps + 1) hno'
          have hb : s ≤ sleeps + (MAX_RETRIES - retry_count) := by
            simp only [MAX_RETRIES] at hr hs ⊢
            omega
          refine ⟨arts, s, by simp [fetchLoop, hr, heq], hb, tail, htail⟩
        | otherError => exact absurd rfl hp

/-- Claim C4: during pagination, connection failures are retried with a
one-second sleep each, up to the fixed bound `MAX_RETRIES = 5`; after the
fifth consecutive-or-not connection failure the loop stops and returns the
artists accumulated so far (with exactly 5 one-second sleeps recorded)
instead of raising; a trace without a non-connection error always ends in
a normal return with at most 5 sleeps and the prior accumulator intact as
a prefix; and a non-connection error reached while the loop is live
propagates as an exception. -/
theorem C4_fetch_retry_policy :
    (∀ (rest : List PageResult) (acc : List ArtistData),
      fetchLoop (List.replicate MAX_RETRIES PageResult.connError ++ rest) 0 true acc 0 =
        Except.ok (acc, MAX_RETRIES)) ∧
    (∀ (responses : List PageResult) (next : Bool) (acc : List ArtistData),
      PageResult.otherError ∉ responses →
      ∃ arts s, fetchLoop responses 0 next acc 0 = Except.ok (arts, s) ∧
        s ≤ MAX_RETRIES ∧ ∃ tail, arts = acc ++ tail) ∧
    (∀ (rest : List PageResult) (acc : List ArtistData) (retry_count sleeps : Nat),
      retry_count < MAX_RETRIES →
      fetchLoop (PageResult.otherError :: rest) retry_count true acc sleeps =
        Except.error ()) := by
  refine ⟨?_, ?_, ?_⟩
  · intro rest acc
    show fetchLoop (PageResult.connError :: PageResult.connError :: PageResult.connError ::
        PageResult.connError :: PageResult.connError :: rest) 0 true acc 0 =
      Except.ok (acc, MAX_RETRIES)
    simp only [fetchLoop, MAX_RETRIES]
    norm_num
    exact fetchLoop_maxed rest 5 acc 5 (by decide)
  · intro responses next acc hno
    obtain ⟨arts, s, heq, hs, htail⟩ :=
      fetchLoop_ok_of_no_otherError responses 0 next acc 0 hno
    exact ⟨arts, s, heq, by simpa using hs, htail⟩
  · intro rest acc retry_count sleeps h
    exact fetchLoop_otherError rest acc retry_count sleeps h

/-- Witness for C4: a one-page trace without errors returns normally, and
a trace whose first pagination call raises a non-connection error
propagates it. -/
theorem C4_fetch_retry_policy_witness :
    (∃ arts s,
      fetchLoop [PageResult.ok [⟨"a2", "Artist Two", "u2"⟩] false] 0 true [] 0 =
        Except.ok (arts, s) ∧ s ≤ MAX_RETRIES ∧ ∃ tail, arts = [] ++ tail) ∧
    fetchLoop [PageResult.otherError] 0 true [] 0 = Except.error () :=
  ⟨C4_fetch_retry_policy.2.1 [PageResult.ok [⟨"a2", "Artist Two", "u2"⟩] false] true []
      (by decide),
   C4_fetch_retry_policy.2.2 [] [] 0 0 (by decide)⟩

/-- The delivery loop posts one body per release in order, and records as
failures exactly the request indices whose status is not 204. -/
theorem pushLoop_spec (statusOf : Nat → Nat) :
    ∀ (releases : List Release) (i : Nat),
      (pushLoop statusOf i releases).1 = releases.map discord_content ∧
      (pushLoop statusOf i releases).2 =
        (List.range' i releases.length).filter (fun j => !(statusOf j == 204)) := by
  intro releases
  induction releases with
  | nil => intro i; constructor <;> rfl
  | cons r rest ih =>
    intro i
    obtain ⟨h1, h2⟩ := ih (i + 1)
    constructor
    · simp [pushLoop, h1]
    · by_cases h : statusOf i = 204
      · simp [pushLoop, h2, List.range'_succ, List.filter_cons, h]
      · simp [pushLoop, h2, List.range'_succ, List.filter_cons, h]

/-- Claim C7: for every release list and every pattern of webhook
responses, exactly one POST is made per release, in list order; the
deliveries logged as failures are exactly the requests whose status is not
204; and with three releases where the second request answers 500, all
three bodies are still posted and only index 1 is recorded as failed. -/
theorem C7_notifier_failure_isolation :
    (∀ (statusOf : Nat → Nat) (url : String) (releases : List Release),
      (push_message_to_discord statusOf url releases).1 = releases.map discord_content) ∧
    (∀ (statusOf : Nat → Nat) (url : String) (releases : List Release),
      (push_message_to_discord statusOf url releases).2 =
        (List.range releases.length).filter (fun j => !(statusOf j == 204))) ∧
    (push_message_to_discord status3 "w" [relA, relC, relD]).1 =
      [discord_content relA, discord_content relC, discord_content relD] ∧
    (push_message_to_discord status3 "w" [relA, relC, relD]).2 = [1] := by
  refine ⟨?_, ?_, by decide, by decide⟩
  · intro statusOf url releases
    exact (pushLoop_spec statusOf releases 0).1
  · intro statusOf url releases
    rw [List.range_eq_range']
    exact (pushLoop_spec statusOf releases 0).2

/-- The notify step on an empty release list makes no request, whatever
the environment holds. -/
theorem send_message_to_discord_nil (env : Option String) (statusOf : Nat → Nat) :
    send_message_to_discord env statusOf [] = ([], []) := by
  cases env with
  | none => rfl
  | some url =>
    by_cases h : url = "" <;>
      simp [send_message_to_discord, push_message_to_discord, pushLoop, h]

/-- The outcome of a run that reaches the notify and persist steps: with a
nonempty artist list and a nonempty candidate list, `main` filters the
candidates against the loaded record, notifies on the filtered list, and
writes the record with the filtered list appended. -/
theorem main_run_eq (artists : List Artist) (oracle : ScanOracle) (now : Date)
    (file0 : Option (List Release)) (env : Option String) (statusOf : Nat → Nat)
    (ha : ¬ artists = [])
    (hc : ¬ get_following_artists_new_releases oracle now artists = []) :
    main artists oracle now file0 env statusOf =
      { file := some (load_releases_from_file file0 ++
          (get_following_artists_new_releases oracle now artists).filter
            (fun release => check_if_new_release (load_releases_from_file file0) release)),
        fileWrites := 1,
        posts := (send_message_to_discord env statusOf
          ((get_following_artists_new_releases oracle now artists).filter
            (fun release => check_if_new_release (load_releases_from_file file0) release))).1,
        failures := (send_message_to_discord env statusOf
          ((get_following_artists_new_releases oracle now artists).filter
            (fun release => check_if_new_release (load_releases_from_file file0) release))).2,
        log := ["Found " ++ Nat.repr artists.length ++ " followed artists.",
                "Checking for new releases...",
                "Found " ++ Nat.repr
                  ((get_following_artists_new_releases oracle now artists).filter
                    (fun release =>
                      check_if_new_release (load_releases_from_file file0) release)).length
                  ++ " new releases."] } := by
  simp only [main, if_neg ha, if_neg hc, add_new_releases_to_file, save_releases_to_file]

/-- Claim C8: with the webhook environment variable unset, the run makes
zero webhook requests and logs no delivery failures, while the file state,
the number of file writes and the orchestrator log are exactly those of
the same run with any other webhook configuration — the earlier steps and
the normal termination of the run are unaffected by the missing webhook. -/
theorem C8_unset_webhook_no_requests :
    ∀ (artists : List Artist) (oracle : ScanOracle) (now : Date)
      (file0 : Option (List Release)) (statusOf : Nat → Nat),
      (main artists oracle now file0 none statusOf).posts = [] ∧
      (main artists oracle now file0 none statusOf).failures = [] ∧
      ∀ env : Option String,
        (main artists oracle now file0 env statusOf).file =
          (main artists oracle now file0 none statusOf).file ∧
        (main artists oracle now file0 env statusOf).fileWrites =
          (main artists oracle now file0 none statusOf).fileWrites ∧
        (main artists oracle now file0 env statusOf).log =
          (main artists oracle now file0 none statusOf).log := by
  intro artists oracle now file0 statusOf
  by_cases ha : artists = []
  · refine ⟨by simp [main, ha], by simp [main, ha], ?_⟩
    intro env
    refine ⟨by simp [main, ha], by simp [main, ha], by simp [main, ha]⟩
  · by_cases hc : get_following_artists_new_releases oracle now artists = []
    · refine ⟨by simp [main, ha, hc], by simp [main, ha, hc], ?_⟩
      intro env
      refine ⟨by simp [main, ha, hc], by simp [main, ha, hc], by simp [main, ha, hc]⟩
    · refine ⟨?_, ?_, ?_⟩
      · rw [main_run_eq artists oracle now file0 none statusOf ha hc]
        rfl
      · rw [main_run_eq artists oracle now file0 none statusOf ha hc]
        rfl
      · intro env
        rw [main_run_eq artists oracle now file0 env statusOf ha hc,
          main_run_eq artists oracle now file0 none statusOf ha hc]
        exact ⟨rfl, rfl, rfl⟩

/-- Claim C6: every run that reaches the persist step writes the prior
record with exactly the genuinely new releases appended in order — the
length grows by their number, every new id is present afterwards, and the
prior entries are unchanged at the front. -/
theorem C6_persist_appends_new (artists : List Artist) (oracle : ScanOracle) (now : Date)
    (file0 : Option (List Release)) (env : Option String) (statusOf : Nat → Nat)
    (ha : artists ≠ [])
    (hc : get_following_artists_new_releases oracle now artists ≠ []) :
    ∃ l, (main artists oracle now file0 env statusOf).file = some l ∧
      l = load_releases_from_file file0 ++
        (get_following_artists_new_releases oracle now artists).filter
          (fun release => check_if_new_release (load_releases_from_file file0) release) ∧
      l.length = (load_releases_from_file file0).length +
        ((get_following_artists_new_releases oracle now artists).filter
          (fun release => check_if_new_release (load_releases_from_file file0) release)).length ∧
      (∀ r ∈ (get_following_artists_new_releases oracle now artists).filter
          (fun release => check_if_new_release (load_releases_from_file file0) release),
        r.id ∈ l.map Release.id) ∧
      l.take (load_releases_from_file file0).length = load_releases_from_file file0 := by
  rw [main_run_eq artists oracle now file0 env statusOf ha hc]
  refine ⟨_, rfl, rfl, List.length_append _ _, ?_, List.take_left _ _⟩
  intro r hr
  rw [List.map_append]
  exact List.mem_append_right _ (List.mem_map_of_mem Release.id hr)

/-- Witness for C6, the cold start: with an empty persisted store and one
scanned candidate, that candidate is classified as new and is the sole
entry of the store after the run. -/
theorem C6_persist_appends_new_witness :
    (∃ l, (main [artOne] oracleOne exNow none none status204).file = some l ∧
      l = load_releases_from_file none ++
        (get_following_artists_new_releases oracleOne exNow [artOne]).filter
          (fun release => check_if_new_release (load_releases_from_file none) release) ∧
      l.length = (load_releases_from_file none).length +
        ((get_following_artists_new_releases oracleOne exNow [artOne]).filter
          (fun release => check_if_new_release (load_releases_from_file none) release)).length ∧
      (∀ r ∈ (get_following_artists_new_releases oracleOne exNow [artOne]).filter
          (fun release => check_if_new_release (load_releases_from_file none) release),
        r.id ∈ l.map Release.id) ∧
      l.take (load_releases_from_file none).length = load_releases_from_file none) ∧
    (main [artOne] oracleOne exNow none none status204).file = some [relSeenOne] :=
  ⟨C6_persist_appends_new [artOne] oracleOne exNow none none status204
      (by decide) (by decide),
   by decide⟩

/-- Counterexample to claim C5 as stated: a concrete run whose candidate
list is nonempty and entirely already seen still performs a write of the
persisted state — `main` does not short-circuit before the persist step
when no candidate is unseen. -/
theorem C5_counterexample_persist_still_written :
    get_following_artists_new_releases oracleOne exNow [artOne] ≠ [] ∧
    (∀ r ∈ get_following_artists_new_releases oracleOne exNow [artOne],
      contains_release (load_releases_from_file (some [relSeenOne])) r = true) ∧
    (main [artOne] oracleOne exNow (some [relSeenOne]) none status204).fileWrites = 1 := by
  decide

/-- Claim C5 as amended: when the scanned candidates exist but every one
of them is already in the loaded record, the run delivers no notification
(zero webhook posts, zero failures) and ends successfully, and it logs
"Found 0 new releases."; but it does not short-circuit: it proceeds
through the notify step on the empty list and performs one write of the
persisted state, rewriting the file with the unchanged record. -/
theorem C5_amended_no_unseen_run (artists : List Artist) (oracle : ScanOracle) (now : Date)
    (file0 : Option (List Release)) (env : Option String) (statusOf : Nat → Nat)
    (ha : artists ≠ [])
    (hc : get_following_artists_new_releases oracle now artists ≠ [])
    (hseen : ∀ r ∈ get_following_artists_new_releases oracle now artists,
      contains_release (load_releases_from_file file0) r = true) :
    (main artists oracle now file0 env statusOf).posts = [] ∧
    (main artists oracle now file0 env statusOf).failures = [] ∧
    (main artists oracle now file0 env statusOf).file =
      some (load_releases_from_file file0) ∧
    (main artists oracle now file0 env statusOf).fileWrites = 1 ∧
    "Found 0 new releases." ∈ (main artists oracle now file0 env statusOf).log := by
  have hnews : (get_following_artists_new_releases oracle now artists).filter
      (fun release => check_if_new_release (load_releases_from_file file0) release) = [] := by
    rw [List.filter_eq_nil_iff]
    intro r hr
    simp [check_if_new_release, hseen r hr]
  rw [main_run_eq artists oracle now file0 env statusOf ha hc]
  rw [hnews]
  refine ⟨?_, ?_, by simp, rfl, ?_⟩
  · rw [send_message_to_discord_nil]
  · rw [send_message_to_discord_nil]
  · simp only [List.length_nil]
    exact List.mem_cons_of_mem _ (List.mem_cons_of_mem _ (List.mem_cons_self _ _))

/-- Witness for the amended C5: the concrete all-seen run delivers
nothing, logs the zero-count line, and rewrites the file with the same
single record. -/
theorem C5_amended_no_unseen_run_witness :
    (main [artOne] oracleOne exNow (some [relSeenOne]) none status204).posts = [] ∧
    (main [artOne] oracleOne exNow (some [relSeenOne]) none status204).failures = [] ∧
    (main [artOne] oracleOne exNow (some [relSeenOne]) none status204).file =
      some (load_releases_from_file (some [relSeenOne])) ∧
    (main [artOne] oracleOne exNow (some [relSeenOne]) none status204).fileWrites = 1 ∧
    "Found 0 new releases." ∈
      (main [artOne] oracleOne exNow (some [relSeenOne]) none status204).log :=
  C5_amended_no_unseen_run [artOne] oracleOne exNow (some [relSeenOne]) none status204
    (by decide) (by decide) (by decide)

/-- Counterexample to claim C1 as stated: when the scan surfaces the same
release id twice (here under the "album" and "single" groups) and the
prior record is empty, both copies pass the new-release check and both are
appended, so the persisted record afterwards holds the id "rd" twice. -/
theorem C1_counterexample_duplicate_candidates :
    (get_following_artists_new_releases oracleDup exNow [artOne]).map Release.id =
      ["rd", "rd"] ∧
    load_releases_from_file (some []) = [] ∧
    ((main [artOne] oracleDup exNow (some []) none status204).file.getD []).countP
      (fun r => r.id == "rd") = 2 := by
  decide

/-- Claim C1 as amended: after a successful run, each release id appears
at most once in the persisted record, provided the scanned candidate list
itself carries pairwise-distinct ids and the prior record already held
each id at most once; without the distinctness proviso the run can write
the same id twice. -/
theorem C1_amended_record_nodup (artists : List Artist) (oracle : ScanOracle) (now : Date)
    (file0 : Option (List Release)) (env : Option String) (statusOf : Nat → Nat)
    (hcand : ((get_following_artists_new_releases oracle now artists).map Release.id).Nodup)
    (hrec : ((load_releases_from_file file0).map Release.id).Nodup) :
    ∀ l, (main artists oracle now file0 env statusOf).file = some l →
      (l.map Release.id).Nodup := by
  intro l hl
  by_cases ha : artists = []
  · simp only [main, if_pos ha] at hl
    have hload : load_releases_from_file file0 = l := by
      rw [hl]
      rfl
    rwa [hload] at hrec
  · by_cases hc : get_following_artists_new_releases oracle now artists = []
    · simp only [main, if_neg ha, if_pos hc] at hl
      have hload : load_releases_from_file file0 = l := by
        rw [hl]
        rfl
      rwa [hload] at hrec
    · rw [main_run_eq artists oracle now file0 env statusOf ha hc] at hl
      have hl' : load_releases_from_file file0 ++
          (get_following_artists_new_releases oracle now artists).filter
            (fun release => check_if_new_release (load_releases_from_file file0) release) = l :=
        Option.some.inj hl
      subst hl'
      rw [List.map_append, List.nodup_append]
      refine ⟨hrec, hcand.sublist (List.Sublist.map _ (List.filter_sublist _)), ?_⟩
      intro x hx hx'
      obtain ⟨r, hrmem, hrid⟩ := List.mem_map.mp hx'
      have hnew := (List.mem_filter.mp hrmem).2
      have hcontains : contains_release (load_releases_from_file file0) r = true := by
        rw [contains_release_eq_true_iff, hrid]
        exact hx
      rw [check_if_new_release, hcontains] at hnew
      cases hnew

/-- Witness for the amended C1: a cold-start run with one candidate whose
id is fresh yields a duplicate-free record. -/
theorem C1_amended_record_nodup_witness :
    (([relSeenOne] : List Release).map Release.id).Nodup :=
  C1_amended_record_nodup [artOne] oracleOne exNow none none status204
    (by decide) (by decide) [relSeenOne] (by decide)

end NewMusicChecker
